import Mathlib

/-!
Shallow embedding of `tools/gpstring.py`, a GDB pretty-printer plugin for
the libGPC `GPString` type.  The script consists of one formatter class
(`GPStringPrinter` with a `to_string` method), two type-name lookup
callbacks (`gp_str_lookup_function`, `gp_const_str_lookup_function`) and two
registration statements appending to `gdb.pretty_printers`.

The debugger host (gdb's Python API) is modelled by an explicit environment
`HostEnv` carrying the debugger's type table, `sizeof` information, debuggee
memory, and gdb's struct reading/rendering facilities.  Python-level faults
(NameError, gdb.MemoryError, decode errors, ...) are modelled by the
`PyError` type, and every fallible host call returns `Except PyError _`.
-/

namespace GPStringTool

set_option autoImplicit false

/-- Faults that the host scripting API can raise into the script. -/
inductive PyError where
  /-- Python `NameError`: an undefined name was evaluated. -/
  | nameError (name : String)
  /-- `gdb.lookup_type` failed to find the named type. -/
  | typeLookupError (typeName : String)
  /-- A debuggee memory read at the given address failed. -/
  | memoryError (addr : Nat)
  /-- The requested struct field does not exist. -/
  | fieldError (name : String)
  /-- Python `UnicodeDecodeError`: the bytes are not valid UTF-8. -/
  | unicodeDecodeError
  deriving DecidableEq, Repr

instance {ε α : Type} [DecidableEq ε] [DecidableEq α] : DecidableEq (Except ε α) := fun a b =>
  match a, b with
  | .ok x, .ok y =>
    if h : x = y then .isTrue (congrArg Except.ok h)
    else .isFalse (fun he => h (Except.ok.inj he))
  | .error x, .error y =>
    if h : x = y then .isTrue (congrArg Except.error h)
    else .isFalse (fun he => h (Except.error.inj he))
  | .ok _, .error _ => .isFalse (fun he => Except.noConfusion he)
  | .error _, .ok _ => .isFalse (fun he => Except.noConfusion he)

/-- A debugger type handle, as returned by `gdb.lookup_type`.  The script
only ever inspects a type through its textual rendering `str(...)`. -/
structure GdbType where
  name : String
  deriving DecidableEq, Repr

/-- The textual rendering `str(val.type)` used by the lookup callbacks. -/
def GdbType.str (t : GdbType) : String := t.name

/-- A debugger value handle (`gdb.Value`).  A `GPString` value is a pointer
into the debuggee, so the handle carries the pointer's integer value
(`addr`) together with the value's reported type. -/
structure GdbValue where
  type : GdbType
  addr : Nat
  deriving DecidableEq, Repr

/-- A pointer-typed value obtained from `val.cast(T.pointer())`: the same
integer address, now interpreted as pointing to values of type `pointee`. -/
structure GdbPtr where
  pointee : GdbType
  addr : Nat
  deriving DecidableEq, Repr

/-- A struct value read out of debuggee memory by gdb, as the script sees
it: a finite map from field names to integer field contents.  Modelled from
the spec: the `GPStringHeader` layout is defined by the C library outside
this repository; the spec says it contains at minimum a `length` field and
is otherwise opaque to this script. -/
structure GdbStructVal where
  fields : List (String × Nat)
  deriving DecidableEq, Repr

/-- Python subscript `str_data["length"]`; gdb raises if the field is
missing. -/
def GdbStructVal.getField (s : GdbStructVal) (name : String) : Except PyError Nat :=
  match s.fields.lookup name with
  | some v => .ok v
  | none => .error (.fieldError name)

/-- The host debugger environment the script calls back into. -/
structure HostEnv where
  /-- Names of the types known to `gdb.lookup_type`. -/
  typeTable : List String
  /-- `sizeof` of a type, by type name (used by gdb pointer arithmetic). -/
  sizeof : String → Nat
  /-- gdb's dereference of a struct pointer: parse the struct of the given
  type stored at the given debuggee address (may fault, e.g. unreadable
  memory). -/
  readStruct : GdbType → Nat → Except PyError GdbStructVal
  /-- gdb's default textual rendering `str(...)` of a struct value. -/
  structStr : GdbStructVal → String
  /-- Debuggee byte memory: `none` means the address is not readable. -/
  mem : Nat → Option Nat

/-- `gdb.lookup_type(name)`: returns the type handle, or raises. -/
def lookup_type (env : HostEnv) (name : String) : Except PyError GdbType :=
  if name ∈ env.typeTable then .ok ⟨name⟩ else .error (.typeLookupError name)

/-- `val.cast(T.pointer())`: reinterpret the value's integer as a pointer
to `t`, keeping the address. -/
def GdbValue.castToPtr (v : GdbValue) (t : GdbType) : GdbPtr :=
  ⟨t, v.addr⟩

/-- Pointer width modulus: pointers are 64-bit machine words, so gdb
pointer arithmetic is performed modulo `2 ^ 64 = 18446744073709551616`. -/
def PTR_MOD : Nat := 18446744073709551616

/-- gdb pointer arithmetic `p - n`: steps back `n` elements of the pointee
type, wrapping at the pointer width. -/
def ptrSub (env : HostEnv) (p : GdbPtr) (n : Nat) : GdbPtr :=
  { p with addr := (p.addr + (PTR_MOD - n * env.sizeof p.pointee.name % PTR_MOD)) % PTR_MOD }

/-- `ptr.dereference()` on a struct pointer: gdb reads and parses the
pointee struct from debuggee memory. -/
def GdbPtr.dereference (env : HostEnv) (p : GdbPtr) : Except PyError GdbStructVal :=
  env.readStruct p.pointee p.addr

/-- Read `n` raw bytes of debuggee memory starting at `a`; a gdb memory
error is raised at the first unreadable address. -/
def readBytes (env : HostEnv) (a : Nat) : Nat → Except PyError (List Nat)
  | 0 => .ok []
  | n + 1 =>
    match env.mem a with
    | none => .error (.memoryError a)
    | some b => (readBytes env (a + 1) n).map (fun bs => b :: bs)

/-- Strict UTF-8 decoding, as performed by Python's `utf-8` codec inside
`gdb.Value.string("utf-8", ...)`: rejects stray continuation bytes,
overlong encodings, surrogate code points and values above `0x10FFFF`. -/
def utf8Decode : List Nat → Except PyError (List Char)
  | [] => .ok []
  | b0 :: rest =>
    if b0 < 0x80 then
      (utf8Decode rest).map (fun cs => Char.ofNat b0 :: cs)
    else if 0xC2 ≤ b0 ∧ b0 ≤ 0xDF then
      match rest with
      | b1 :: rest1 =>
        if 0x80 ≤ b1 ∧ b1 ≤ 0xBF then
          (utf8Decode rest1).map (fun cs =>
            Char.ofNat ((b0 - 0xC0) * 64 + (b1 - 0x80)) :: cs)
        else .error .unicodeDecodeError
      | [] => .error .unicodeDecodeError
    else if 0xE0 ≤ b0 ∧ b0 ≤ 0xEF then
      match rest with
      | b1 :: b2 :: rest2 =>
        if (0x80 ≤ b1 ∧ b1 ≤ 0xBF) ∧ (0x80 ≤ b2 ∧ b2 ≤ 0xBF) ∧
            (b0 ≠ 0xE0 ∨ 0xA0 ≤ b1) ∧ (b0 ≠ 0xED ∨ b1 ≤ 0x9F) then
          (utf8Decode rest2).map (fun cs =>
            Char.ofNat ((b0 - 0xE0) * 4096 + (b1 - 0x80) * 64 + (b2 - 0x80)) :: cs)
        else .error .unicodeDecodeError
      | _ => .error .unicodeDecodeError
    else if 0xF0 ≤ b0 ∧ b0 ≤ 0xF4 then
      match rest with
      | b1 :: b2 :: b3 :: rest3 =>
        if (0x80 ≤ b1 ∧ b1 ≤ 0xBF) ∧ (0x80 ≤ b2 ∧ b2 ≤ 0xBF) ∧
            (0x80 ≤ b3 ∧ b3 ≤ 0xBF) ∧
            (b0 ≠ 0xF0 ∨ 0x90 ≤ b1) ∧ (b0 ≠ 0xF4 ∨ b1 ≤ 0x8F) then
          (utf8Decode rest3).map (fun cs =>
            Char.ofNat ((b0 - 0xF0) * 262144 + (b1 - 0x80) * 4096 +
              (b2 - 0x80) * 64 + (b3 - 0x80)) :: cs)
        else .error .unicodeDecodeError
      | _ => .error .unicodeDecodeError
    else .error .unicodeDecodeError

/-- `ptr.string("utf-8", length = len)`: read exactly `len` bytes at the
pointer's address and decode them strictly as UTF-8. -/
def GdbPtr.stringUtf8 (env : HostEnv) (p : GdbPtr) (len : Nat) : Except PyError (List Char) :=
  (readBytes env p.addr len).bind utf8Decode

/-- One hexadecimal digit, lowercase. -/
def hexDigitChar (n : Nat) : Char :=
  if n < 10 then Char.ofNat (48 + n) else Char.ofNat (87 + n)

/-- `w` lowercase hexadecimal digits of `v`, most significant first. -/
def hexDigits : Nat → Nat → List Char
  | 0, _ => []
  | w + 1, v => hexDigits w (v / 16) ++ [hexDigitChar (v % 16)]

/-- Escaping of one character by Python's `unicode_escape` codec:
backslash and the C escapes `\t`, `\n`, `\r` get a backslash form, other
characters below `0x20` and from `0x7F` to `0xFF` become `\xHH`, larger
code points become `\uHHHH` or `\UHHHHHHHH`, and printable ASCII
(including both quote characters) is left unchanged. -/
def escapeChar (c : Char) : List Char :=
  if c = '\\' then ['\\', '\\']
  else if c = '\t' then ['\\', 't']
  else if c = '\n' then ['\\', 'n']
  else if c = '\r' then ['\\', 'r']
  else if 0x20 ≤ c.toNat ∧ c.toNat < 0x7F then [c]
  else if c.toNat < 0x100 then '\\' :: 'x' :: hexDigits 2 c.toNat
  else if c.toNat < 0x10000 then '\\' :: 'u' :: hexDigits 4 c.toNat
  else '\\' :: 'U' :: hexDigits 8 c.toNat

/-- `s.encode("unicode_escape").decode()`: escape every character; the
result is ASCII, so the final `.decode()` round-trip is the identity. -/
def unicodeEscape (cs : List Char) : List Char :=
  cs.flatMap escapeChar

/-- The `GPStringPrinter` class of the script: it stores the value handle
passed to `__init__`. -/
structure GPStringPrinter where
  val : GdbValue
  deriving DecidableEq, Repr

/-- `GPStringPrinter.to_string`, line by line from the script:
look up the `GPStringHeader` type, cast the value to a header pointer,
step back one element and dereference to get the header struct; look up
`char` (then taken `.pointer()`), read `str_data["length"]`, cast the
original value to `char *` and decode that many bytes as UTF-8; escape the
text with `unicode_escape`; return the quoted escaped text, `", "`, and
gdb's rendering `str(str_data)` of the header. -/
def GPStringPrinter.to_string (env : HostEnv) (self : GPStringPrinter) : Except PyError String := do
  let T_str_data ← lookup_type env "GPStringHeader"
  let val_as_data_ptr := self.val.castToPtr T_str_data
  let str_data ← (ptrSub env val_as_data_ptr 1).dereference env
  let T_cstr ← lookup_type env "char"
  let len ← str_data.getField "length"
  let val_contents ← (self.val.castToPtr T_cstr).stringUtf8 env len
  return "\"" ++ (unicodeEscape val_contents).asString ++ "\", " ++ env.structStr str_data

/-- The global names the script's module defines by the time the two
registration statements at the bottom run: the imports (lines 1-2), the
class (line 4) and the two lookup functions (lines 18 and 23). -/
def definedNames : List String :=
  ["gdb", "gdb.printing", "GPStringPrinter",
   "gp_str_lookup_function", "gp_const_str_lookup_function"]

/-- Python name resolution in the module: an undefined name raises
`NameError`. -/
def resolveName (n : String) : Except PyError String :=
  if n ∈ definedNames then .ok n else .error (.nameError n)

/-- Lookup callback for the plain spelling: on `str(val.type) ==
"GPString"` the script evaluates the (undefined) name `StringPrinter` and
would call it on `val`; on any other type name it returns `None`
(modelled as `Option.none`). -/
def gp_str_lookup_function (val : GdbValue) : Except PyError (Option GPStringPrinter) :=
  if val.type.str = "GPString" then
    (resolveName "StringPrinter").map (fun _ => some ⟨val⟩)
  else
    .ok none

/-- Lookup callback for the const-qualified spelling, matching on
`str(val.type) == "const GPString"`. -/
def gp_const_str_lookup_function (val : GdbValue) : Except PyError (Option GPStringPrinter) :=
  if val.type.str = "const GPString" then
    (resolveName "StringPrinter").map (fun _ => some ⟨val⟩)
  else
    .ok none

/-- The two top-level registration statements (lines 28-29): each resolves
a callback name and appends the resulting object to the host's global
`gdb.pretty_printers` list; a `NameError` aborts the module load with the
list in its state at that point. -/
def loadRegistrations (pretty_printers : List String) : Except PyError (List String) := do
  let f1 ← resolveName "str_lookup_function"
  let pp1 := pretty_printers ++ [f1]
  let f2 ← resolveName "const_str_lookup_function"
  return pp1 ++ [f2]

/-! ### Helper lemmas -/

theorem resolveName_StringPrinter :
    resolveName "StringPrinter" = .error (.nameError "StringPrinter") := by
  decide

theorem ptrSub_one_addr (env : HostEnv) (t : GdbType) (a : Nat)
    (h1 : env.sizeof t.name ≤ a) (h2 : a < PTR_MOD) :
    (ptrSub env ⟨t, a⟩ 1).addr = a - env.sizeof t.name := by
  simp only [ptrSub, PTR_MOD] at *
  omega

theorem except_bind_ok {ε α β : Type} (a : α) (f : α → Except ε β) :
    (Except.ok a : Except ε α) >>= f = f a := rfl

theorem except_bind_error {ε α β : Type} (e : ε) (f : α → Except ε β) :
    (Except.error e : Except ε α) >>= f = .error e := rfl

theorem except_pure {ε α : Type} (a : α) :
    (pure a : Except ε α) = Except.ok a := rfl

theorem except_bind_eq {ε α β : Type} (x : Except ε α) (f : α → Except ε β) :
    Except.bind x f = x >>= f := rfl

theorem ptrSub_pointee (env : HostEnv) (p : GdbPtr) (n : Nat) :
    (ptrSub env p n).pointee = p.pointee := rfl

theorem castToPtr_pointee (v : GdbValue) (t : GdbType) :
    (GdbValue.castToPtr v t).pointee = t := rfl

/-- Unfolding of `to_string` when both type lookups succeed and the
pointer arithmetic does not wrap: the header struct is read at
`v.addr - sizeof GPStringHeader` and the payload bytes at `v.addr`. -/
theorem to_string_eq_of_types (env : HostEnv) (v : GdbValue)
    (hT : "GPStringHeader" ∈ env.typeTable)
    (hC : "char" ∈ env.typeTable)
    (hlo : env.sizeof "GPStringHeader" ≤ v.addr)
    (hhi : v.addr < PTR_MOD) :
    GPStringPrinter.to_string env ⟨v⟩ =
      (env.readStruct ⟨"GPStringHeader"⟩ (v.addr - env.sizeof "GPStringHeader")) >>=
        (fun str_data => (str_data.getField "length") >>=
          (fun len => ((readBytes env v.addr len) >>= utf8Decode) >>=
            (fun cs => Except.ok
              ("\"" ++ (unicodeEscape cs).asString ++ "\", " ++ env.structStr str_data)))) := by
  have hL : lookup_type env "GPStringHeader" = .ok ⟨"GPStringHeader"⟩ := by
    unfold lookup_type
    rw [if_pos hT]
  have hCh : lookup_type env "char" = .ok ⟨"char"⟩ := by
    unfold lookup_type
    rw [if_pos hC]
  have haddr : (ptrSub env ⟨⟨"GPStringHeader"⟩, v.addr⟩ 1).addr
      = v.addr - env.sizeof "GPStringHeader" :=
    ptrSub_one_addr env ⟨"GPStringHeader"⟩ v.addr hlo hhi
  simp only [GPStringPrinter.to_string, GdbPtr.dereference, GdbPtr.stringUtf8,
    GdbValue.castToPtr, ptrSub_pointee, hL, hCh, haddr, except_bind_ok, except_pure,
    except_bind_eq]

/-! ### Claims about the formatter -/

/-- C1: for an in-memory `GPStringHeader` whose `length` field is `L`,
immediately followed by `L` valid UTF-8 bytes, `to_string` on a value
handle addressing that buffer returns the `unicode_escape`d decoding of
those bytes enclosed in double quotes, concatenated with `", "` and the
header's default textual rendering. -/
theorem to_string_formats_header_and_payload (env : HostEnv) (v : GdbValue)
    (hdr : GdbStructVal) (L : Nat) (bs : List Nat) (cs : List Char)
    (hT : "GPStringHeader" ∈ env.typeTable)
    (hC : "char" ∈ env.typeTable)
    (hlo : env.sizeof "GPStringHeader" ≤ v.addr)
    (hhi : v.addr < PTR_MOD)
    (hH : env.readStruct ⟨"GPStringHeader"⟩ (v.addr - env.sizeof "GPStringHeader") = .ok hdr)
    (hLen : hdr.getField "length" = .ok L)
    (hB : readBytes env v.addr L = .ok bs)
    (hU : utf8Decode bs = .ok cs) :
    GPStringPrinter.to_string env ⟨v⟩ =
      .ok ("\"" ++ (unicodeEscape cs).asString ++ "\", " ++ env.structStr hdr) := by
  rw [to_string_eq_of_types env v hT hC hlo hhi]
  simp only [hH, hLen, hB, hU, except_bind_ok]

/-- A concrete host environment: a 16-byte `GPStringHeader` of length 2 at
address 84, immediately followed at address 100 by the bytes of `"hi"`. -/
def hiEnv : HostEnv where
  typeTable := ["GPStringHeader", "char"]
  sizeof := fun _ => 16
  readStruct := fun t a =>
    if t.name = "GPStringHeader" ∧ a = 84 then .ok ⟨[("length", 2)]⟩
    else .error (.memoryError a)
  structStr := fun _ => "\x7blength = 2, capacity = 16\x7d"
  mem := fun a => if a = 100 then some 104 else if a = 101 then some 105 else none

/-- Witness for C1 on `hiEnv`. -/
theorem to_string_formats_header_and_payload_witness :
    GPStringPrinter.to_string hiEnv ⟨⟨⟨"GPString"⟩, 100⟩⟩ =
      .ok "\"hi\", \x7blength = 2, capacity = 16\x7d" := by
  rw [to_string_formats_header_and_payload hiEnv ⟨⟨"GPString"⟩, 100⟩ ⟨[("length", 2)]⟩ 2
    [104, 105] (['h', 'i']) (by decide) (by decide) (by decide) (by decide) (by decide)
    (by decide) (by decide) (by decide)]
  decide

/-- C6: the formatter locates the header by casting the value's address to
a header pointer and stepping back exactly one record (`sizeof
GPStringHeader` bytes), then decodes exactly length-field-many bytes as
UTF-8 starting at the original address. -/
theorem to_string_header_one_record_back (env : HostEnv) (v : GdbValue)
    (hT : "GPStringHeader" ∈ env.typeTable)
    (hC : "char" ∈ env.typeTable)
    (hlo : env.sizeof "GPStringHeader" ≤ v.addr)
    (hhi : v.addr < PTR_MOD) :
    GPStringPrinter.to_string env ⟨v⟩ =
      (env.readStruct ⟨"GPStringHeader"⟩ (v.addr - env.sizeof "GPStringHeader")) >>=
        (fun str_data => (str_data.getField "length") >>=
          (fun len => ((readBytes env v.addr len) >>= utf8Decode) >>=
            (fun cs => Except.ok
              ("\"" ++ (unicodeEscape cs).asString ++ "\", " ++ env.structStr str_data)))) :=
  to_string_eq_of_types env v hT hC hlo hhi

/-- Witness for C6 on `hiEnv`: the header is fetched 16 bytes back from
address 100, i.e. at address 84. -/
theorem to_string_header_one_record_back_witness :
    GPStringPrinter.to_string hiEnv ⟨⟨⟨"GPString"⟩, 100⟩⟩ =
      (hiEnv.readStruct ⟨"GPStringHeader"⟩ 84) >>=
        (fun str_data => (str_data.getField "length") >>=
          (fun len => ((readBytes hiEnv 100 len) >>= utf8Decode) >>=
            (fun cs => Except.ok
              ("\"" ++ (unicodeEscape cs).asString ++ "\", " ++ hiEnv.structStr str_data)))) :=
  to_string_header_one_record_back hiEnv ⟨⟨"GPString"⟩, 100⟩ (by decide) (by decide)
    (by decide) (by decide)

/-- C7: `to_string` performs no error handling of its own: whichever host
call fails first (type lookup, struct read, field access, or the byte
read / UTF-8 decode inside `string`), its fault is returned unmodified. -/
theorem to_string_propagates_host_faults (env : HostEnv) (v : GdbValue) (e : PyError) :
    (lookup_type env "GPStringHeader" = .error e →
      GPStringPrinter.to_string env ⟨v⟩ = .error e) ∧
    (∀ t : GdbType, lookup_type env "GPStringHeader" = .ok t →
      env.readStruct t (ptrSub env (v.castToPtr t) 1).addr = .error e →
      GPStringPrinter.to_string env ⟨v⟩ = .error e) ∧
    (∀ (t : GdbType) (hdr : GdbStructVal), lookup_type env "GPStringHeader" = .ok t →
      env.readStruct t (ptrSub env (v.castToPtr t) 1).addr = .ok hdr →
      lookup_type env "char" = .error e →
      GPStringPrinter.to_string env ⟨v⟩ = .error e) ∧
    (∀ (t tc : GdbType) (hdr : GdbStructVal), lookup_type env "GPStringHeader" = .ok t →
      env.readStruct t (ptrSub env (v.castToPtr t) 1).addr = .ok hdr →
      lookup_type env "char" = .ok tc →
      hdr.getField "length" = .error e →
      GPStringPrinter.to_string env ⟨v⟩ = .error e) ∧
    (∀ (t tc : GdbType) (hdr : GdbStructVal) (L : Nat),
      lookup_type env "GPStringHeader" = .ok t →
      env.readStruct t (ptrSub env (v.castToPtr t) 1).addr = .ok hdr →
      lookup_type env "char" = .ok tc →
      hdr.getField "length" = .ok L →
      (v.castToPtr tc).stringUtf8 env L = .error e →
      GPStringPrinter.to_string env ⟨v⟩ = .error e) := by
  refine ⟨?_, ?_, ?_, ?_, ?_⟩
  · intro h1
    simp only [GPStringPrinter.to_string, h1, except_bind_error]
  · intro t h1 h2
    simp only [GPStringPrinter.to_string, GdbPtr.dereference, ptrSub_pointee,
      castToPtr_pointee, h1, h2, except_bind_ok, except_bind_error]
  · intro t hdr h1 h2 h3
    simp only [GPStringPrinter.to_string, GdbPtr.dereference, ptrSub_pointee,
      castToPtr_pointee, h1, h2, h3, except_bind_ok, except_bind_error]
  · intro t tc hdr h1 h2 h3 h4
    simp only [GPStringPrinter.to_string, GdbPtr.dereference, ptrSub_pointee,
      castToPtr_pointee, h1, h2, h3, h4, except_bind_ok, except_bind_error]
  · intro t tc hdr L h1 h2 h3 h4 h5
    simp only [GPStringPrinter.to_string, GdbPtr.dereference, ptrSub_pointee,
      castToPtr_pointee, h1, h2, h3, h4, h5, except_bind_ok, except_bind_error]

/-- A host environment that does not know the `GPStringHeader` type. -/
def noHeaderEnv : HostEnv where
  typeTable := ["char"]
  sizeof := fun _ => 16
  readStruct := fun _ a => .error (.memoryError a)
  structStr := fun _ => ""
  mem := fun _ => none

/-- A host environment whose payload byte `0xFF` at address 100 is not
valid UTF-8 (header of length 1 at address 84). -/
def badUtf8Env : HostEnv where
  typeTable := ["GPStringHeader", "char"]
  sizeof := fun _ => 16
  readStruct := fun t a =>
    if t.name = "GPStringHeader" ∧ a = 84 then .ok ⟨[("length", 1)]⟩
    else .error (.memoryError a)
  structStr := fun _ => "\x7blength = 1\x7d"
  mem := fun a => if a = 100 then some 255 else none

/-- Witness for C7: a type-lookup fault and a UTF-8 decode fault each
surface unmodified from `to_string`. -/
theorem to_string_propagates_host_faults_witness :
    GPStringPrinter.to_string noHeaderEnv ⟨⟨⟨"GPString"⟩, 100⟩⟩ =
      .error (.typeLookupError "GPStringHeader") ∧
    GPStringPrinter.to_string badUtf8Env ⟨⟨⟨"GPString"⟩, 100⟩⟩ =
      .error .unicodeDecodeError :=
  ⟨(to_string_propagates_host_faults noHeaderEnv ⟨⟨"GPString"⟩, 100⟩
      (.typeLookupError "GPStringHeader")).1 (by decide),
   (to_string_propagates_host_faults badUtf8Env ⟨⟨"GPString"⟩, 100⟩
      .unicodeDecodeError).2.2.2.2 ⟨"GPStringHeader"⟩ ⟨"char"⟩ ⟨[("length", 1)]⟩ 1
      (by decide) (by decide) (by decide) (by decide) (by decide)⟩

/-- A host environment whose one-byte payload at address 100 is `0x22`,
the double-quote character (header of length 1 at address 92). -/
def quoteEnv : HostEnv where
  typeTable := ["GPStringHeader", "char"]
  sizeof := fun _ => 8
  readStruct := fun t a =>
    if t.name = "GPStringHeader" ∧ a = 92 then .ok ⟨[("length", 1)]⟩
    else .error (.memoryError a)
  structStr := fun _ => "\x7blength = 1\x7d"
  mem := fun a => if a = 100 then some 34 else none

/-- C9: the `unicode_escape` codec leaves the double-quote character
unescaped, so a payload containing `"` produces an output whose quoted
portion contains a bare interior `"`: here the output starts with three
consecutive quote characters, which is not a well-formed string literal
delimiting the escaped text. -/
theorem unicode_escape_leaves_quote_unescaped :
    escapeChar (Char.ofNat 34) = [Char.ofNat 34] ∧
    GPStringPrinter.to_string quoteEnv ⟨⟨⟨"GPString"⟩, 100⟩⟩ =
      .ok "\"\"\", \x7blength = 1\x7d" ∧
    ("\"\"\", \x7blength = 1\x7d").data.take 3 = [Char.ofNat 34, Char.ofNat 34, Char.ofNat 34] := by
  refine ⟨by decide, ?_, by decide⟩
  decide

/-! ### Claims about the lookup callbacks and the registration statements -/

/-- C3: the two registration statements reference the names
`str_lookup_function` and `const_str_lookup_function`, which the module
never defines (it defines `gp_str_lookup_function` and
`gp_const_str_lookup_function` instead), so evaluating either registration
statement fails name resolution with a `NameError`. -/
theorem registration_names_undefined :
    "str_lookup_function" ∉ definedNames ∧
    "const_str_lookup_function" ∉ definedNames ∧
    "gp_str_lookup_function" ∈ definedNames ∧
    "gp_const_str_lookup_function" ∈ definedNames ∧
    resolveName "str_lookup_function" = .error (.nameError "str_lookup_function") ∧
    resolveName "const_str_lookup_function" =
      .error (.nameError "const_str_lookup_function") := by
  decide

/-- C2, evaluating the code at the failing input: loading the script never
appends two callbacks, because the first registration statement raises
`NameError` on the undefined name `str_lookup_function`, aborting the
module load with the host's pretty-printer list unchanged. -/
theorem loadRegistrations_raises_nameError (pretty_printers : List String) :
    loadRegistrations pretty_printers = .error (.nameError "str_lookup_function") := rfl

/-- C4, evaluating the code at the failing input: on an exactly matching
type name each callback raises `NameError` on the undefined name
`StringPrinter` instead of returning a formatter, while names that merely
contain the spelling as a substring are declined with `None`. -/
theorem lookup_exact_match_raises_instead_of_formatter :
    gp_str_lookup_function ⟨⟨"GPString"⟩, 100⟩ = .error (.nameError "StringPrinter") ∧
    gp_const_str_lookup_function ⟨⟨"const GPString"⟩, 100⟩ =
      .error (.nameError "StringPrinter") ∧
    gp_str_lookup_function ⟨⟨"GPStringX"⟩, 100⟩ = .ok none ∧
    gp_str_lookup_function ⟨⟨"const GPString"⟩, 100⟩ = .ok none ∧
    gp_const_str_lookup_function ⟨⟨"GPString"⟩, 100⟩ = .ok none := by
  decide

/-- C5: a value whose reported type name is neither `"GPString"` nor
`"const GPString"` is declined by both callbacks with `None`, leaving the
host to try other registered printers. -/
theorem lookups_decline_other_type_names (v : GdbValue)
    (h1 : v.type.str ≠ "GPString") (h2 : v.type.str ≠ "const GPString") :
    gp_str_lookup_function v = .ok none ∧ gp_const_str_lookup_function v = .ok none := by
  constructor
  · unfold gp_str_lookup_function
    rw [if_neg h1]
  · unfold gp_const_str_lookup_function
    rw [if_neg h2]

/-- Witness for C5 at the concrete type name `"int"`. -/
theorem lookups_decline_other_type_names_witness :
    gp_str_lookup_function ⟨⟨"int"⟩, 0⟩ = .ok none ∧
    gp_const_str_lookup_function ⟨⟨"int"⟩, 0⟩ = .ok none :=
  lookups_decline_other_type_names ⟨⟨"int"⟩, 0⟩ (by decide) (by decide)

/-- C8: the matched branch of each lookup callback references the name
`StringPrinter`, which the module never defines (the defined class is
`GPStringPrinter`), so a matching lookup raises a `NameError` instead of
returning a formatter object. -/
theorem matched_branch_raises_on_undefined_name :
    "StringPrinter" ∉ definedNames ∧
    "GPStringPrinter" ∈ definedNames ∧
    (∀ v : GdbValue, v.type.str = "GPString" →
      gp_str_lookup_function v = .error (.nameError "StringPrinter")) ∧
    (∀ v : GdbValue, v.type.str = "const GPString" →
      gp_const_str_lookup_function v = .error (.nameError "StringPrinter")) := by
  refine ⟨by decide, by decide, ?_, ?_⟩
  · intro v hv
    unfold gp_str_lookup_function
    rw [if_pos hv, resolveName_StringPrinter]
    rfl
  · intro v hv
    unfold gp_const_str_lookup_function
    rw [if_pos hv, resolveName_StringPrinter]
    rfl

/-- Witness for C8 at concrete matching values. -/
theorem matched_branch_raises_on_undefined_name_witness :
    gp_str_lookup_function ⟨⟨"GPString"⟩, 7⟩ = .error (.nameError "StringPrinter") ∧
    gp_const_str_lookup_function ⟨⟨"const GPString"⟩, 7⟩ =
      .error (.nameError "StringPrinter") :=
  ⟨matched_branch_raises_on_undefined_name.2.2.1 ⟨⟨"GPString"⟩, 7⟩ rfl,
   matched_branch_raises_on_undefined_name.2.2.2 ⟨⟨"const GPString"⟩, 7⟩ rfl⟩

/-- C10: each lookup callback is a deterministic function of the textual
rendering of the value's reported type alone: two values whose types
render to the same string get the same outcome from both callbacks. -/
theorem lookups_depend_only_on_type_name (v w : GdbValue)
    (h : v.type.str = w.type.str) :
    gp_str_lookup_function v = gp_str_lookup_function w ∧
    gp_const_str_lookup_function v = gp_const_str_lookup_function w := by
  constructor
  · unfold gp_str_lookup_function
    rw [h]
    by_cases hc : w.type.str = "GPString"
    · rw [if_pos hc, if_pos hc, resolveName_StringPrinter]
      rfl
    · rw [if_neg hc, if_neg hc]
  · unfold gp_const_str_lookup_function
    rw [h]
    by_cases hc : w.type.str = "const GPString"
    · rw [if_pos hc, if_pos hc, resolveName_StringPrinter]
      rfl
    · rw [if_neg hc, if_neg hc]

/-- Witness for C10: two distinct value handles of the same reported type
get the same outcome. -/
theorem lookups_depend_only_on_type_name_witness :
    gp_str_lookup_function ⟨⟨"GPString"⟩, 1⟩ = gp_str_lookup_function ⟨⟨"GPString"⟩, 2⟩ ∧
    gp_const_str_lookup_function ⟨⟨"GPString"⟩, 1⟩ =
      gp_const_str_lookup_function ⟨⟨"GPString"⟩, 2⟩ :=
  lookups_depend_only_on_type_name ⟨⟨"GPString"⟩, 1⟩ ⟨⟨"GPString"⟩, 2⟩ rfl

end GPStringTool
